import Mathlib

/-
  Verification of crython/expression.py (cron expression parsing and matching).

  The expression module is embedded shallowly below.  The field layer
  (crython/field.py) is not part of the sources; the few capabilities the
  expression module consumes from it are modelled from the specification and
  are marked with doc comments starting with "Modelled from the spec:".

  Python-specific behaviour is made explicit:
  - a Python string object is a `PyStr`: its value plus a flag recording
    whether it is the very module-level REBOOT_KEYWORD object (the source
    compares with `is`, i.e. object identity);
  - exceptions are an explicit `PyErr` error type, computations that can
    raise return `Except PyErr _`;
  - `STRUCT_TIME_FIELDS` is a frozenset in the source, so the order in which
    `zip` consumes its elements is an arbitrary permutation of the seven
    names; likewise the iteration order of `self.__dict__` is an arbitrary
    permutation of the eight attribute names.  Definitions take these orders
    as parameters and theorems quantify over all permutations.
-/

namespace Crython

deriving instance DecidableEq for Except

/-- Modelled from the spec: the field layer's parsed field value (crython/field.py
is absent from the sources).  It records the field name and the raw token; the
spec treats it as an opaque capability with parse, membership and rendering. -/
structure CronField where
  name : String
  token : String
deriving DecidableEq, Repr

namespace field

/-- Modelled from the spec: the field layer's default token, meaning
"any value" (a wildcard). -/
def DEFAULT_VALUE : String := "*"

/-- Modelled from the spec: the canonical field-name list in fixed order
(second, minute, hour, day, month, weekday, year). -/
def NAMES : List String := ["second", "minute", "hour", "day", "month", "weekday", "year"]

/-- Modelled from the spec: the ordered name-to-constructor mapping
(named `field.partials` in the source), one constructor per field name,
iterated in fixed field order. -/
def ctors : List (String × (String → CronField)) :=
  NAMES.map (fun n => (n, fun tok => CronField.mk n tok))

/-- Modelled from the spec: the membership test of a field value.  Only the
fragment of the field micro-grammar the spec documents is needed: the default
token matches every integer, and a plain integer token matches exactly itself. -/
def contains (f : CronField) (x : Int) : Bool :=
  if f.token = DEFAULT_VALUE then true
  else
    match f.token.toInt? with
    | some n => x == n
    | none => false

/-- Modelled from the spec: the canonical string rendering of a field value;
it round-trips the raw token. -/
def render (f : CronField) : String := f.token

end field

/-- Python whitespace characters, as recognised by str.split() with no
arguments. -/
def pyIsSpace (c : Char) : Bool :=
  c = ' ' || c = '\t' || c = '\n' || c = '\r' || c = '\x0b' || c = '\x0c'

/-- Helper for `pySplitWs`: walk the characters, accumulating the current
token reversed; whitespace runs separate tokens and produce no empty tokens. -/
def pySplitGo : List Char → List Char → List String
  | [], acc => if acc.isEmpty then [] else [String.mk acc.reverse]
  | c :: cs, acc =>
    if pyIsSpace c then
      if acc.isEmpty then pySplitGo cs []
      else String.mk acc.reverse :: pySplitGo cs []
    else pySplitGo cs (c :: acc)

/-- Python str.split() with no arguments: split on runs of whitespace,
discarding empty strings. -/
def pySplitWs (s : String) : List String := pySplitGo s.toList []

/-- Lookup in an association list modelling a Python dict (dict.get). -/
def alookup {α : Type} : List (String × α) → String → Option α
  | [], _ => none
  | (k, v) :: rest, key => if key = k then some v else alookup rest key

/-- A Python string object: its textual value together with whether this very
object is the module-level REBOOT_KEYWORD constant (the source tests the
reboot case with the identity operator `is`, which for a string distinct from
that constant is false even when the values are equal). -/
structure PyStr where
  val : String
  isRebootConst : Bool
deriving DecidableEq, Repr

/-- Python exceptions raised by the embedded code.  `valueError a e` carries
the actual and expected field counts of the message
"Expression contains a fields; expects e"; `keyError k` is KeyError(k). -/
inductive PyErr where
  | valueError : Nat → Nat → PyErr
  | keyError : String → PyErr
  | typeError : PyErr
deriving DecidableEq, Repr

/-- Number of fields for a single cron expression (source: FIELD_COUNT). -/
def FIELD_COUNT : Nat := 7

/-- Members of the frozenset STRUCT_TIME_FIELDS, listed here in the order of
the source literal; the actual iteration order of the frozenset is an
arbitrary permutation of this list. -/
def STRUCT_TIME_FIELDS : List String :=
  ["year", "month", "day", "hour", "minute", "second", "weekday"]

/-- Reserved keyword indicating a reboot expression (source: REBOOT_KEYWORD). -/
def REBOOT_KEYWORD : String := "@reboot"

/-- Reserved keywords that map to a specific cron expression
(source: RESERVED_KEYWORDS). -/
def RESERVED_KEYWORDS : List (String × String) :=
  [("@yearly", "0 0 0 0 1 1 *"),
   ("@annually", "0 0 0 0 1 1 *"),
   ("@monthly", "0 0 0 0 1 * *"),
   ("@weekly", "0 0 0 0 * 0 *"),
   ("@daily", "0 0 0 * * * *"),
   ("@hourly", "0 0 * * * * *"),
   ("@minutely", "0 * * * * * *"),
   ("@secondly", "* * * * * * *")]

/-- Default expression string value (source: DEFAULT_VALUE).  The source
joins the characters of the string repetition field.DEFAULT_VALUE * 7 with
single spaces. -/
def DEFAULT_VALUE : String :=
  String.intercalate " "
    (((String.join (List.replicate FIELD_COUNT field.DEFAULT_VALUE)).toList).map
      (fun c => String.mk [c]))

/-- Result of `_expression_str_to_dict` when no exception is raised: either
the reboot sentinel object or a dict mapping field names to raw tokens. -/
inductive StrToDictResult where
  | rebootSentinel : StrToDictResult
  | fieldDict : List (String × String) → StrToDictResult
deriving DecidableEq, Repr

/-- Embedding of `_expression_str_to_dict`.  The first test in the source is
`expression is REBOOT_KEYWORD` (object identity), modelled by the
`isRebootConst` flag of `PyStr`; then the keyword table is consulted, the
string is split on whitespace and the token count is checked. -/
def expression_str_to_dict (s : PyStr) : Except PyErr StrToDictResult :=
  if s.isRebootConst then Except.ok StrToDictResult.rebootSentinel
  else
    let expression := (alookup RESERVED_KEYWORDS s.val).getD s.val
    let values := pySplitWs expression
    if values.length ≠ FIELD_COUNT then
      Except.error (PyErr.valueError values.length FIELD_COUNT)
    else
      Except.ok (StrToDictResult.fieldDict (field.NAMES.zip values))

/-- Embedding of `_fields_tuple_from_dict`: iterate the field layer's ordered
name-to-constructor mapping, feeding each constructor the raw value looked up
under its name, or the field default when absent. -/
def fields_tuple_from_dict (fields : List (String × String)) : List CronField :=
  field.ctors.map (fun p => p.2 ((alookup fields p.1).getD field.DEFAULT_VALUE))

/-- A value stored in one of the seven field attributes of a CronExpression:
the constructors route through the field layer and store `CronField` objects,
but the reboot constructor stores the raw default-token strings directly. -/
inductive FieldAttr where
  | fv : CronField → FieldAttr
  | raw : String → FieldAttr
deriving DecidableEq, Repr

/-- Python str() of a stored field attribute. -/
def FieldAttr.pyStr : FieldAttr → String
  | FieldAttr.fv f => field.render f
  | FieldAttr.raw s => s

/-- The Python value stored in the reboot attribute: the constructors pass a
bool, but the constructor signature accepts anything (claim C10 exercises the
integer 1). -/
inductive PyVal where
  | pyBool : Bool → PyVal
  | pyInt : Int → PyVal
deriving DecidableEq, Repr

/-- Embedding of the CronExpression instance state: the seven field
attributes set by the constructor, in declaration order, plus reboot. -/
structure CronExpression where
  second : FieldAttr
  minute : FieldAttr
  hour : FieldAttr
  day : FieldAttr
  month : FieldAttr
  weekday : FieldAttr
  year : FieldAttr
  reboot : PyVal
deriving DecidableEq, Repr

/-- Embedding of the constructor call `cls(*args, reboot=r)`: the argument
list is unpacked positionally into the seven parameters second, minute, hour,
day, month, weekday, year; a wrong arity is a TypeError. -/
def initExpr (args : List FieldAttr) (reboot : PyVal) : Except PyErr CronExpression :=
  match args with
  | [s, mi, h, d, mo, w, y] =>
    Except.ok (CronExpression.mk s mi h d mo w y reboot)
  | _ => Except.error PyErr.typeError

/-- Embedding of `CronExpression.from_kwargs`: build the ordered field tuple
from the mapping and unpack it into the constructor (reboot defaults to
False). -/
def CronExpression.from_kwargs (kwargs : List (String × String)) :
    Except PyErr CronExpression :=
  initExpr ((fields_tuple_from_dict kwargs).map FieldAttr.fv) (PyVal.pyBool false)

/-- Embedding of the classmethod `CronExpression.reboot`: unpack the
whitespace-split DEFAULT_VALUE (raw strings, not field objects) into the
constructor with reboot=True. -/
def rebootExpr : Except PyErr CronExpression :=
  initExpr ((pySplitWs DEFAULT_VALUE).map FieldAttr.raw) (PyVal.pyBool true)

/-- Embedding of `CronExpression.from_str`: convert the string to a dict; on
the reboot sentinel build the reboot instance, otherwise feed the dict to
from_kwargs. -/
def CronExpression.from_str (s : PyStr) : Except PyErr CronExpression :=
  match expression_str_to_dict s with
  | Except.error e => Except.error e
  | Except.ok StrToDictResult.rebootSentinel => rebootExpr
  | Except.ok (StrToDictResult.fieldDict fields) => CronExpression.from_kwargs fields

/-- Truthiness of the optional expression argument of `CronExpression.new`:
None and the empty string are falsy, any other string is truthy. -/
def pyTruthy : Option PyStr → Bool
  | none => false
  | some s => !(s.val == "")

/-- Embedding of `CronExpression.new`: from_str when the expression argument
is truthy, from_kwargs otherwise. -/
def CronExpression.new (expression : Option PyStr) (kwargs : List (String × String)) :
    Except PyErr CronExpression :=
  if pyTruthy expression then
    CronExpression.from_str (expression.getD (PyStr.mk "" false))
  else
    CronExpression.from_kwargs kwargs

/-- Embedding of the property `CronExpression.is_reboot`, which is
`self.reboot is True`: identity with the boolean True object. -/
def CronExpression.is_reboot (e : CronExpression) : Bool :=
  match e.reboot with
  | PyVal.pyBool b => b
  | PyVal.pyInt _ => false

/-- Embedding of `CronExpression.__str__`: the reboot keyword for a reboot
expression, otherwise the str() of the seven field attributes in fixed order
joined by single spaces. -/
def CronExpression.render (e : CronExpression) : String :=
  if e.is_reboot then REBOOT_KEYWORD
  else
    String.intercalate " "
      ([e.second, e.minute, e.hour, e.day, e.month, e.weekday, e.year].map FieldAttr.pyStr)

/-- The first seven components of time.struct_time for a timestamp, in
struct_time order: tm_year, tm_mon, tm_mday, tm_hour, tm_min, tm_sec,
tm_wday. -/
structure TimeTuple where
  year : Int
  month : Int
  day : Int
  hour : Int
  minute : Int
  second : Int
  weekday : Int
deriving DecidableEq, Repr

/-- The list dt.timetuple()[:FIELD_COUNT], in struct_time order. -/
def timetuple7 (t : TimeTuple) : List Int :=
  [t.year, t.month, t.day, t.hour, t.minute, t.second, t.weekday]

/-- A value of self.__dict__: one of the seven field attributes or the
reboot attribute. -/
inductive Attr where
  | fld : FieldAttr → Attr
  | pv : PyVal → Attr
deriving DecidableEq, Repr

/-- The keys of self.__dict__ of a CronExpression, in attribute-assignment
order; the actual iteration order of the dict is an arbitrary permutation of
this list. -/
def ATTR_NAMES : List String :=
  ["second", "minute", "hour", "day", "month", "weekday", "year", "reboot"]

/-- Attribute lookup on a CronExpression instance. -/
def CronExpression.attr (e : CronExpression) : String → Option Attr
  | "second" => some (Attr.fld e.second)
  | "minute" => some (Attr.fld e.minute)
  | "hour" => some (Attr.fld e.hour)
  | "day" => some (Attr.fld e.day)
  | "month" => some (Attr.fld e.month)
  | "weekday" => some (Attr.fld e.weekday)
  | "year" => some (Attr.fld e.year)
  | "reboot" => some (Attr.pv e.reboot)
  | _ => none

/-- The items of self.__dict__ in a given iteration order of its keys. -/
def dictItems (dictOrder : List String) (e : CronExpression) : List (String × Attr) :=
  dictOrder.filterMap (fun k => (e.attr k).map (fun a => (k, a)))

/-- Python membership `x in v` for a __dict__ value: membership in a field
object goes through the field layer; an int is not a member of a plain string
or of a bool, both raise TypeError. -/
def pyMember (x : Int) : Attr → Except PyErr Bool
  | Attr.fld (FieldAttr.fv f) => Except.ok (field.contains f x)
  | Attr.fld (FieldAttr.raw _) => Except.error PyErr.typeError
  | Attr.pv _ => Except.error PyErr.typeError

/-- The short-circuiting all() over the generator
`(fields[k] in v for k, v in self.__dict__.items())`: a key of __dict__
absent from the decomposed-timestamp dict raises KeyError when reached. -/
def matchesAux (fields : List (String × Int)) : List (String × Attr) → Except PyErr Bool
  | [] => Except.ok true
  | (k, v) :: rest =>
    match alookup fields k with
    | none => Except.error (PyErr.keyError k)
    | some x =>
      match pyMember x v with
      | Except.error e => Except.error e
      | Except.ok b => if b then matchesAux fields rest else Except.ok false

/-- Embedding of `CronExpression.matches`: zip the frozenset
STRUCT_TIME_FIELDS, iterated in order `zipOrder`, with the first seven
struct_time components, then run the all() over self.__dict__ iterated in
order `dictOrder`. -/
def CronExpression.matches (zipOrder dictOrder : List String) (e : CronExpression)
    (t : TimeTuple) : Except PyErr Bool :=
  matchesAux (zipOrder.zip (timetuple7 t)) (dictItems dictOrder e)

/-- The call `e.matches(t)` with its post-state: the method body contains no
attribute assignment, so the receiver after the call is the receiver before. -/
def CronExpression.matchesCall (zipOrder dictOrder : List String) (e : CronExpression)
    (t : TimeTuple) : (Except PyErr Bool) × CronExpression :=
  (CronExpression.matches zipOrder dictOrder e t, e)

/-- The expression built from the all-wildcards string, i.e.
from_kwargs with every field at the default token. -/
def starExpr : CronExpression :=
  CronExpression.mk
    (FieldAttr.fv (CronField.mk "second" "*"))
    (FieldAttr.fv (CronField.mk "minute" "*"))
    (FieldAttr.fv (CronField.mk "hour" "*"))
    (FieldAttr.fv (CronField.mk "day" "*"))
    (FieldAttr.fv (CronField.mk "month" "*"))
    (FieldAttr.fv (CronField.mk "weekday" "*"))
    (FieldAttr.fv (CronField.mk "year" "*"))
    (PyVal.pyBool false)

/-- The expression produced by the reboot constructor: seven raw default
tokens and reboot True. -/
def rebootVal : CronExpression :=
  CronExpression.mk
    (FieldAttr.raw "*") (FieldAttr.raw "*") (FieldAttr.raw "*") (FieldAttr.raw "*")
    (FieldAttr.raw "*") (FieldAttr.raw "*") (FieldAttr.raw "*")
    (PyVal.pyBool true)

/-- The expression built from the keyword arguments hour equal to the token 5,
every other field at the default token. -/
def hour5Expr : CronExpression :=
  { starExpr with hour := FieldAttr.fv (CronField.mk "hour" "5") }

/-- A sample timestamp: 2020-01-01 00:00:00, a Wednesday (tm_wday 2). -/
def t0 : TimeTuple := TimeTuple.mk 2020 1 1 0 0 0 2

/-- A sample timestamp whose hour component is 5: 2020-05-05 05:05:05,
a Tuesday (tm_wday 1). -/
def t5 : TimeTuple := TimeTuple.mk 2020 5 5 5 5 5 1

/-- If a key occurs in the first component list and that list is no longer
than the second, looking the key up in the zip succeeds. -/
theorem alookup_zip_isSome {α : Type} :
    ∀ (l1 : List String) (l2 : List α) (k : String),
      k ∈ l1 → l1.length ≤ l2.length → ∃ x, alookup (l1.zip l2) k = some x := by
  intro l1
  induction l1 with
  | nil => intro l2 k hk _; cases hk
  | cons a l1 ih =>
    intro l2 k hk hlen
    cases l2 with
    | nil => simp at hlen
    | cons b l2 =>
      rw [List.zip_cons_cons]
      by_cases hka : k = a
      · exact ⟨b, by rw [alookup, if_pos hka]⟩
      · have hk2 : k ∈ l1 := by
          cases hk with
          | head => exact absurd rfl hka
          | tail _ h => exact h
        obtain ⟨x, hx⟩ := ih l2 k hk2 (by simpa using Nat.le_of_succ_le_succ hlen)
        exact ⟨x, by rw [alookup, if_neg hka]; exact hx⟩

/-- Looking up a key absent from the first component list of a zip fails. -/
theorem alookup_zip_none {α : Type} :
    ∀ (l1 : List String) (l2 : List α) (k : String),
      k ∉ l1 → alookup (l1.zip l2) k = none := by
  intro l1
  induction l1 with
  | nil => intro l2 k _; cases l2 <;> rfl
  | cons a l1 ih =>
    intro l2 k hk
    cases l2 with
    | nil => rfl
    | cons b l2 =>
      have hka : ¬ k = a := fun h => hk (h ▸ List.mem_cons_self a l1)
      have hk2 : k ∉ l1 := fun h => hk (List.mem_cons_of_mem a h)
      rw [List.zip_cons_cons, alookup, if_neg hka]
      exact ih l2 k hk2

/-- Membership in the items of self.__dict__ determines the key to be in the
iteration order and the value to be the attribute stored under that key. -/
theorem mem_dictItems {dictOrder : List String} {e : CronExpression}
    {k : String} {a : Attr} (hp : (k, a) ∈ dictItems dictOrder e) :
    k ∈ dictOrder ∧ e.attr k = some a := by
  obtain ⟨k2, hk2, hmap⟩ := List.mem_filterMap.mp hp
  obtain ⟨a2, ha2, heq⟩ := Option.map_eq_some'.mp hmap
  obtain ⟨rfl, rfl⟩ := Prod.mk.injEq .. ▸ heq
  exact ⟨hk2, ha2⟩

/-- The reboot attribute appears among the items of self.__dict__ whenever
the key reboot appears in the iteration order. -/
theorem reboot_mem_dictItems {dictOrder : List String} {e : CronExpression}
    (h : "reboot" ∈ dictOrder) :
    ("reboot", Attr.pv e.reboot) ∈ dictItems dictOrder e :=
  List.mem_filterMap.mpr ⟨"reboot", h, rfl⟩

/-- If every item of the generator either is the reboot attribute with a
failing dict lookup or is a field attribute whose lookup and membership test
both succeed, and the reboot key does occur, then the all() raises
KeyError for the reboot key. -/
theorem matchesAux_keyError :
    ∀ (fields : List (String × Int)) (items : List (String × Attr)),
      (∀ p ∈ items,
        (p.1 = "reboot" ∧ alookup fields p.1 = none) ∨
        (p.1 ≠ "reboot" ∧ ∃ x f, alookup fields p.1 = some x ∧
          p.2 = Attr.fld (FieldAttr.fv f) ∧ field.contains f x = true)) →
      "reboot" ∈ items.map Prod.fst →
      matchesAux fields items = Except.error (PyErr.keyError "reboot") := by
  intro fields items
  induction items with
  | nil => intro _ hmem; simp at hmem
  | cons p rest ih =>
    intro hall hmem
    obtain ⟨k, v⟩ := p
    rcases hall (k, v) (List.mem_cons_self _ _) with ⟨hk, hnone⟩ | ⟨hk, x, f, hx, hv, hc⟩
    · subst hk
      simp only [matchesAux, hnone]
    · have hmem2 : "reboot" ∈ rest.map Prod.fst := by
        rcases List.mem_cons.mp hmem with h | h
        · exact absurd h.symm hk
        · exact h
      have hrest := ih (fun q hq => hall q (List.mem_cons_of_mem _ hq)) hmem2
      subst hv
      simp only [matchesAux, hx, pyMember, hc, if_pos]
      exact hrest

/-- If the all() returns True then every key of self.__dict__ was found in
the decomposed-timestamp dict. -/
theorem matchesAux_ok_true :
    ∀ (fields : List (String × Int)) (items : List (String × Attr)),
      matchesAux fields items = Except.ok true →
      ∀ p ∈ items, ∃ x, alookup fields p.1 = some x := by
  intro fields items
  induction items with
  | nil => intro _ p hp; cases hp
  | cons q rest ih =>
    intro h p hp
    obtain ⟨k, v⟩ := q
    rcases hlook : alookup fields k with _ | x
    · simp only [matchesAux, hlook] at h
      exact Except.noConfusion h
    · rcases hp with _ | ⟨_, hp⟩
      · exact ⟨x, hlook⟩
      · rcases hmem : pyMember x v with e | b
        · simp only [matchesAux, hlook, hmem] at h
          exact Except.noConfusion h
        · simp only [matchesAux, hlook, hmem] at h
          cases b with
          | false => simp only [if_neg (by simp : ¬ (false = true))] at h; cases h
          | true =>
            rw [if_pos rfl] at h
            exact ih h p hp

/-- The attribute stored by starExpr under each of its __dict__ keys: the
reboot flag under the reboot key, a wildcard field object under each field
name. -/
theorem starExpr_attr_cases (k : String) (a : Attr) (hk : k ∈ ATTR_NAMES)
    (hpa : starExpr.attr k = some a) :
    (k = "reboot" ∧ a = Attr.pv (PyVal.pyBool false)) ∨
    (k ≠ "reboot" ∧ a = Attr.fld (FieldAttr.fv (CronField.mk k "*"))) := by
  have hk2 : k ∈ (["second", "minute", "hour", "day", "month", "weekday", "year",
      "reboot"] : List String) := hk
  fin_cases hk2 <;>
    simp only [starExpr, CronExpression.attr] at hpa <;>
    first
      | (left; exact ⟨rfl, (Option.some.inj hpa).symm⟩)
      | (right; exact ⟨by decide, (Option.some.inj hpa).symm⟩)

/-- Every key of self.__dict__ other than reboot is a member of the
frozenset STRUCT_TIME_FIELDS. -/
theorem attr_name_mem_struct (k : String) (hk : k ∈ ATTR_NAMES)
    (hne : k ≠ "reboot") : k ∈ STRUCT_TIME_FIELDS := by
  have hk2 : k ∈ (["second", "minute", "hour", "day", "month", "weekday", "year",
      "reboot"] : List String) := hk
  fin_cases hk2 <;> first | decide | exact absurd rfl hne

/-- C1: the spec states that matches decomposes the timestamp into the seven
named components, each paired with its correct component, and returns true
iff all seven per-field membership tests pass, consulting no values other
than the seven field sets.  The code violates this: it iterates
self.__dict__, which also contains the reboot attribute, and looks that key
up in the seven-key timestamp dict; moreover the pairing comes from zipping
a frozenset, whose iteration order is arbitrary.  For the all-wildcard
expression, where every per-field membership test passes at every timestamp,
and any iteration orders of the frozenset and of the instance dict, matches
raises KeyError for the reboot key instead of returning true. -/
theorem C1_matches_raises_keyerror (zipOrder dictOrder : List String)
    (hz : zipOrder.Perm STRUCT_TIME_FIELDS) (hd : dictOrder.Perm ATTR_NAMES)
    (t : TimeTuple) :
    CronExpression.from_str (PyStr.mk "* * * * * * *" false) = Except.ok starExpr ∧
    CronExpression.matches zipOrder dictOrder starExpr t =
      Except.error (PyErr.keyError "reboot") := by
  refine ⟨by decide, ?_⟩
  have hlen : zipOrder.length ≤ (timetuple7 t).length := by
    rw [hz.length_eq]; exact Nat.le_refl 7
  unfold CronExpression.matches
  apply matchesAux_keyError
  · intro p hp
    obtain ⟨k, a⟩ := p
    dsimp only at hp ⊢
    obtain ⟨hpd, hpa⟩ := mem_dictItems hp
    have hk : k ∈ ATTR_NAMES := hd.mem_iff.mp hpd
    rcases starExpr_attr_cases k a hk hpa with ⟨hkr, _⟩ | ⟨hkr, ha⟩
    · left
      refine ⟨hkr, ?_⟩
      rw [hkr]
      apply alookup_zip_none
      intro hmem
      exact absurd (hz.mem_iff.mp hmem) (by decide)
    · right
      refine ⟨hkr, ?_⟩
      obtain ⟨x, hx⟩ := alookup_zip_isSome zipOrder (timetuple7 t) k
        (hz.mem_iff.mpr (attr_name_mem_struct k hk hkr)) hlen
      exact ⟨x, CronField.mk k "*", hx, ha, by simp [field.contains, field.DEFAULT_VALUE]⟩
  · exact List.mem_map_of_mem Prod.fst
      (reboot_mem_dictItems (e := starExpr) (hd.mem_iff.mpr (by decide)))

/-- Witness for C1 at the source-literal iteration orders and the timestamp
2020-05-05 05:05:05. -/
theorem C1_matches_raises_keyerror_witness :
    STRUCT_TIME_FIELDS.Perm STRUCT_TIME_FIELDS ∧ ATTR_NAMES.Perm ATTR_NAMES ∧
    (CronExpression.from_str (PyStr.mk "* * * * * * *" false) = Except.ok starExpr ∧
     CronExpression.matches STRUCT_TIME_FIELDS ATTR_NAMES starExpr t5 =
       Except.error (PyErr.keyError "reboot")) :=
  ⟨List.Perm.refl _, List.Perm.refl _,
    C1_matches_raises_keyerror STRUCT_TIME_FIELDS ATTR_NAMES
      (List.Perm.refl _) (List.Perm.refl _) t5⟩

/-- C7: the spec states that an expression built from only hour=5 matches
exactly the timestamps whose hour component is 5.  Omitted fields are indeed
filled with the default token, but the matching half fails on the code: at
the timestamp 2020-05-05 05:05:05, whose hour is 5, matches never returns
True for any iteration orders of the frozenset and of the instance dict
(it raises KeyError for the reboot key, or returns False under a pairing
that sends the hour field a non-matching component). -/
theorem C7_from_kwargs_hour5 (zipOrder dictOrder : List String)
    (hz : zipOrder.Perm STRUCT_TIME_FIELDS) (hd : dictOrder.Perm ATTR_NAMES) :
    CronExpression.from_kwargs [("hour", "5")] = Except.ok hour5Expr ∧
    t5.hour = 5 ∧
    CronExpression.matches zipOrder dictOrder hour5Expr t5 ≠ Except.ok true := by
  refine ⟨by decide, rfl, ?_⟩
  intro h
  unfold CronExpression.matches at h
  obtain ⟨x, hx⟩ := matchesAux_ok_true _ _ h _
    (reboot_mem_dictItems (e := hour5Expr) (hd.mem_iff.mpr (by decide)))
  rw [alookup_zip_none] at hx
  · exact Option.noConfusion hx
  · intro hmem2
    exact absurd (hz.mem_iff.mp hmem2) (by decide)

/-- Witness for C7 at the source-literal iteration orders. -/
theorem C7_from_kwargs_hour5_witness :
    STRUCT_TIME_FIELDS.Perm STRUCT_TIME_FIELDS ∧ ATTR_NAMES.Perm ATTR_NAMES ∧
    (CronExpression.from_kwargs [("hour", "5")] = Except.ok hour5Expr ∧
     t5.hour = 5 ∧
     CronExpression.matches STRUCT_TIME_FIELDS ATTR_NAMES hour5Expr t5 ≠ Except.ok true) :=
  ⟨List.Perm.refl _, List.Perm.refl _,
    C7_from_kwargs_hour5 STRUCT_TIME_FIELDS ATTR_NAMES
      (List.Perm.refl _) (List.Perm.refl _)⟩

/-- C9 counterexample: at the all-wildcard expression and the timestamp
2020-01-01 00:00:00, an invocation of matches yields no boolean at all; it
raises KeyError for the reboot key, so the claim that two invocations yield
the same boolean is false as stated. -/
theorem C9_matches_no_boolean :
    (CronExpression.matchesCall STRUCT_TIME_FIELDS ATTR_NAMES starExpr t0).1 =
      Except.error (PyErr.keyError "reboot") ∧
    (CronExpression.matchesCall STRUCT_TIME_FIELDS ATTR_NAMES starExpr t0).1 ≠
      Except.ok true ∧
    (CronExpression.matchesCall STRUCT_TIME_FIELDS ATTR_NAMES starExpr t0).1 ≠
      Except.ok false := by decide

/-- C9 as amended: matches is deterministic and mutation-free.  Two
invocations with the same expression, timestamp and iteration orders yield
the same outcome (the same boolean when one is returned, the same exception
otherwise), the expression after the call is the expression before, and its
canonical rendering is unchanged. -/
theorem C9_matches_pure (zipOrder dictOrder : List String) (e : CronExpression)
    (t : TimeTuple) :
    (CronExpression.matchesCall zipOrder dictOrder e t).2 = e ∧
    CronExpression.matchesCall zipOrder dictOrder
        (CronExpression.matchesCall zipOrder dictOrder e t).2 t =
      CronExpression.matchesCall zipOrder dictOrder e t ∧
    (CronExpression.matchesCall zipOrder dictOrder e t).2.render = e.render :=
  ⟨rfl, rfl, rfl⟩

/-- C2: the spec states that construction from every string equal to the
reboot keyword yields a reboot expression rendering exactly that keyword.
The code compares with object identity, not equality: when the input string
is the very module-level REBOOT_KEYWORD object the reboot expression is
produced and renders the keyword, but a distinct string object with the same
value falls through the keyword table, splits into one token and raises
ValueError reporting 1 versus 7. -/
theorem C2_reboot_identity_only :
    (CronExpression.from_str (PyStr.mk REBOOT_KEYWORD true) = Except.ok rebootVal ∧
     rebootVal.is_reboot = true ∧
     rebootVal.render = REBOOT_KEYWORD) ∧
    CronExpression.from_str (PyStr.mk REBOOT_KEYWORD false) =
      Except.error (PyErr.valueError 1 FIELD_COUNT) := by decide

/-- C3 counterexample: the module-level reboot keyword itself splits, after
the identity keyword-table expansion leaves it unchanged, into one token,
which is different from 7, yet construction from it succeeds with a reboot
expression rather than failing. -/
theorem C3_reboot_escapes_count_check :
    (pySplitWs ((alookup RESERVED_KEYWORDS REBOOT_KEYWORD).getD REBOOT_KEYWORD)).length ≠
      FIELD_COUNT ∧
    CronExpression.from_str (PyStr.mk REBOOT_KEYWORD true) = Except.ok rebootVal := by
  decide

/-- C3 as amended: for every input string other than the module-level reboot
keyword object that, after reserved-keyword expansion, splits on whitespace
into a number of tokens different from 7, construction fails with ValueError
reporting the actual token count and the expected count 7, and no expression
is constructed. -/
theorem C3_wrong_token_count (s : PyStr) (hs : s.isRebootConst = false)
    (h7 : (pySplitWs ((alookup RESERVED_KEYWORDS s.val).getD s.val)).length ≠ FIELD_COUNT) :
    CronExpression.from_str s =
      Except.error (PyErr.valueError
        (pySplitWs ((alookup RESERVED_KEYWORDS s.val).getD s.val)).length FIELD_COUNT) := by
  unfold CronExpression.from_str expression_str_to_dict
  rw [hs]
  simp only [Bool.false_eq_true, if_false, if_pos h7]

/-- Witness for C3 at the three-token example from the spec. -/
theorem C3_wrong_token_count_witness :
    (PyStr.mk "* * *" false).isRebootConst = false ∧
    (pySplitWs ((alookup RESERVED_KEYWORDS "* * *").getD "* * *")).length ≠ FIELD_COUNT ∧
    CronExpression.from_str (PyStr.mk "* * *" false) =
      Except.error (PyErr.valueError 3 FIELD_COUNT) :=
  ⟨rfl, by decide,
    (C3_wrong_token_count (PyStr.mk "* * *" false) rfl (by decide)).trans (by decide)⟩

/-- C4: the field-tuple builder consumes the ordered name-to-constructor
mapping in the fixed order second, minute, hour, day, month, weekday, year,
so the constructor receives the raw values positionally and each value
supplied under a field name is stored in the attribute of that same name
(absent names fall back to the field default). -/
theorem C4_fields_tuple_order (kwargs : List (String × String)) :
    CronExpression.from_kwargs kwargs = Except.ok (CronExpression.mk
      (FieldAttr.fv (CronField.mk "second" ((alookup kwargs "second").getD field.DEFAULT_VALUE)))
      (FieldAttr.fv (CronField.mk "minute" ((alookup kwargs "minute").getD field.DEFAULT_VALUE)))
      (FieldAttr.fv (CronField.mk "hour" ((alookup kwargs "hour").getD field.DEFAULT_VALUE)))
      (FieldAttr.fv (CronField.mk "day" ((alookup kwargs "day").getD field.DEFAULT_VALUE)))
      (FieldAttr.fv (CronField.mk "month" ((alookup kwargs "month").getD field.DEFAULT_VALUE)))
      (FieldAttr.fv (CronField.mk "weekday" ((alookup kwargs "weekday").getD field.DEFAULT_VALUE)))
      (FieldAttr.fv (CronField.mk "year" ((alookup kwargs "year").getD field.DEFAULT_VALUE)))
      (PyVal.pyBool false)) := rfl

/-- Parsing the zip of the field names with seven explicit tokens stores the
tokens positionally. -/
theorem from_kwargs_zip (a b c d e f g : String) :
    CronExpression.from_kwargs (field.NAMES.zip [a, b, c, d, e, f, g]) =
      Except.ok (CronExpression.mk
        (FieldAttr.fv (CronField.mk "second" a))
        (FieldAttr.fv (CronField.mk "minute" b))
        (FieldAttr.fv (CronField.mk "hour" c))
        (FieldAttr.fv (CronField.mk "day" d))
        (FieldAttr.fv (CronField.mk "month" e))
        (FieldAttr.fv (CronField.mk "weekday" f))
        (FieldAttr.fv (CronField.mk "year" g))
        (PyVal.pyBool false)) := rfl

/-- C5 counterexample: the input has seven tokens, is no keyword and every
token round-trips through its field, yet it is separated by a double space,
so rendering the parsed expression returns the single-space join, which is
not the input. -/
theorem C5_roundtrip_counterexample :
    CronExpression.from_str (PyStr.mk "* * * * * *  *" false) = Except.ok starExpr ∧
    starExpr.render = "* * * * * * *" ∧
    ("* * * * * *  *" : String) ≠ "* * * * * * *" := by decide

/-- C5 as amended: rendering the expression parsed from a valid non-keyword,
non-reboot 7-token expression string yields the string back provided every
field rendering round-trips its token and the string is the single-space
join of its whitespace-split tokens. -/
theorem C5_roundtrip (s : PyStr) (hr : s.isRebootConst = false)
    (hk : alookup RESERVED_KEYWORDS s.val = none)
    (a b c d e f g : String) (hts : pySplitWs s.val = [a, b, c, d, e, f, g])
    (hjoin : s.val = String.intercalate " " [a, b, c, d, e, f, g]) :
    ∃ ex, CronExpression.from_str s = Except.ok ex ∧ ex.render = s.val := by
  have h1 : expression_str_to_dict s =
      Except.ok (StrToDictResult.fieldDict (field.NAMES.zip [a, b, c, d, e, f, g])) := by
    unfold expression_str_to_dict
    rw [hr, hk]
    simp only [Option.getD_none, hts, Bool.false_eq_true, if_false]
    rfl
  refine ⟨CronExpression.mk
      (FieldAttr.fv (CronField.mk "second" a))
      (FieldAttr.fv (CronField.mk "minute" b))
      (FieldAttr.fv (CronField.mk "hour" c))
      (FieldAttr.fv (CronField.mk "day" d))
      (FieldAttr.fv (CronField.mk "month" e))
      (FieldAttr.fv (CronField.mk "weekday" f))
      (FieldAttr.fv (CronField.mk "year" g))
      (PyVal.pyBool false), ?_, ?_⟩
  · unfold CronExpression.from_str
    rw [h1]
    exact from_kwargs_zip a b c d e f g
  · rw [hjoin]
    rfl

/-- Witness for C5 at the noon expression from the spec. -/
theorem C5_roundtrip_witness :
    alookup RESERVED_KEYWORDS "0 0 12 * * * *" = none ∧
    pySplitWs "0 0 12 * * * *" = ["0", "0", "12", "*", "*", "*", "*"] ∧
    ("0 0 12 * * * *" : String) =
      String.intercalate " " ["0", "0", "12", "*", "*", "*", "*"] ∧
    ∃ ex, CronExpression.from_str (PyStr.mk "0 0 12 * * * *" false) = Except.ok ex ∧
      ex.render = "0 0 12 * * * *" :=
  ⟨by decide, by decide, by decide,
    C5_roundtrip (PyStr.mk "0 0 12 * * * *" false) rfl (by decide)
      "0" "0" "12" "*" "*" "*" "*" (by decide) (by decide)⟩

/-- C6: for every reserved keyword, the expression constructed from the
keyword equals, field by field, the expression constructed from its
documented 7-token expansion string. -/
theorem C6_keyword_expansion (k expn : String) (h : (k, expn) ∈ RESERVED_KEYWORDS) :
    CronExpression.from_str (PyStr.mk k false) =
      CronExpression.from_str (PyStr.mk expn false) := by
  have h2 : (k, expn) ∈ ([("@yearly", "0 0 0 0 1 1 *"),
      ("@annually", "0 0 0 0 1 1 *"),
      ("@monthly", "0 0 0 0 1 * *"),
      ("@weekly", "0 0 0 0 * 0 *"),
      ("@daily", "0 0 0 * * * *"),
      ("@hourly", "0 0 * * * * *"),
      ("@minutely", "0 * * * * * *"),
      ("@secondly", "* * * * * * *")] : List (String × String)) := h
  fin_cases h2 <;> decide

/-- Witness for C6 at the weekly keyword. -/
theorem C6_keyword_expansion_witness :
    ("@weekly", "0 0 0 0 * 0 *") ∈ RESERVED_KEYWORDS ∧
    CronExpression.from_str (PyStr.mk "@weekly" false) =
      CronExpression.from_str (PyStr.mk "0 0 0 0 * 0 *" false) :=
  ⟨by decide, C6_keyword_expansion "@weekly" "0 0 0 0 * 0 *" (by decide)⟩

/-- C8: the combined entry point equals from_str whenever a non-empty
expression string is supplied, and equals from_kwargs when the expression is
None or the empty string; it implements no third algorithm. -/
theorem C8_new_dispatch (s : PyStr) (kwargs : List (String × String))
    (hs : s.val ≠ "") :
    CronExpression.new (some s) kwargs = CronExpression.from_str s ∧
    CronExpression.new none kwargs = CronExpression.from_kwargs kwargs ∧
    (∀ flag : Bool, CronExpression.new (some (PyStr.mk "" flag)) kwargs =
      CronExpression.from_kwargs kwargs) := by
  refine ⟨?_, rfl, fun flag => rfl⟩
  unfold CronExpression.new pyTruthy
  simp [hs]

/-- Witness for C8 at a concrete non-empty expression string. -/
theorem C8_new_dispatch_witness :
    ("* * * * * * *" : String) ≠ "" ∧
    (CronExpression.new (some (PyStr.mk "* * * * * * *" false)) [("hour", "5")] =
       CronExpression.from_str (PyStr.mk "* * * * * * *" false) ∧
     CronExpression.new none [("hour", "5")] =
       CronExpression.from_kwargs [("hour", "5")] ∧
     (∀ flag : Bool, CronExpression.new (some (PyStr.mk "" flag)) [("hour", "5")] =
       CronExpression.from_kwargs [("hour", "5")])) :=
  ⟨by decide, C8_new_dispatch (PyStr.mk "* * * * * * *" false) [("hour", "5")] (by decide)⟩

/-- C10: is_reboot tests identity with the boolean True, so it returns true
exactly when the reboot attribute is the boolean True itself, and an
expression constructed with the truthy integer 1 as the reboot argument has
is_reboot false. -/
theorem C10_is_reboot_requires_true (e : CronExpression) :
    (e.is_reboot = true ↔ e.reboot = PyVal.pyBool true) ∧
    initExpr (List.replicate FIELD_COUNT (FieldAttr.raw field.DEFAULT_VALUE))
        (PyVal.pyInt 1) =
      Except.ok (CronExpression.mk (FieldAttr.raw "*") (FieldAttr.raw "*")
        (FieldAttr.raw "*") (FieldAttr.raw "*") (FieldAttr.raw "*")
        (FieldAttr.raw "*") (FieldAttr.raw "*") (PyVal.pyInt 1)) ∧
    (CronExpression.mk (FieldAttr.raw "*") (FieldAttr.raw "*") (FieldAttr.raw "*")
      (FieldAttr.raw "*") (FieldAttr.raw "*") (FieldAttr.raw "*") (FieldAttr.raw "*")
      (PyVal.pyInt 1)).is_reboot = false := by
  refine ⟨?_, rfl, rfl⟩
  rcases e with ⟨s, mi, h, d, mo, w, y, r⟩
  cases r with
  | pyBool b => cases b <;> simp [CronExpression.is_reboot]
  | pyInt n => simp [CronExpression.is_reboot]

end Crython
